import Mathlib

/-!
Shallow embedding of the AI Photo Studio single-page application
(src/App.tsx, src/types.ts) and proofs of its specified properties.

The session state and its four handlers (`handleImageUpload`,
`handleNewUpload`, `handleSubmit`, `handleDownloadAll`) are translated
directly from src/App.tsx.  The external Edit Client
(`editImageWithGemini`) and the archive library are outside the session
logic; an awaited call is embedded by passing its outcome as an explicit
parameter to the handler that awaits it.
-/

namespace App

/-- src/types.ts: `UploadedImage \x7b dataUrl: string; mimeType: string \x7d`. -/
structure UploadedImage where
  dataUrl : String
  mimeType : String
deriving DecidableEq, Repr

/-- src/types.ts: `EditedImageResult \x7b imageUrl: string; text?: string; prompt?: string \x7d`.
Optional fields become `Option`. -/
structure EditedImageResult where
  imageUrl : String
  text : Option String
  prompt : Option String
deriving DecidableEq, Repr

/-- The result record returned by the Edit Client on success: an image
reference and optional commentary (src/unnamed/part_000 declares this
interface shape; the `prompt` field is added by `handleSubmit` itself
via the object spread on line 131 of src/App.tsx). -/
structure GeminiResult where
  imageUrl : String
  text : Option String
deriving DecidableEq, Repr

/-- Outcome of the awaited `editImageWithGemini` call: success with a
result record, or a thrown value.  A thrown `Error` carries its
`message` string (`some msg`); a thrown non-`Error` value carries none. -/
abbrev EditOutcome := Except (Option String) GeminiResult

/-- Modelled from the spec: `getInitializationError` lives in
services/geminiService, which is not under src/.  Per the spec it
returns the standing configuration error message when the required
external credential is absent, and null when the environment is
configured.  Its value is environment-determined, so handlers that read
it receive it as an explicit `Option String` argument of this type. -/
abbrev InitError := Option String

/-- The session state held by the App component (src/App.tsx lines
59-63): original image or null, prompt text, ordered result history,
loading flag, error message or null. -/
structure Session where
  originalImage : Option UploadedImage
  prompt : String
  editedResults : List EditedImageResult
  isLoading : Bool
  error : Option String
deriving DecidableEq, Repr

/-- Initial session state (src/App.tsx lines 59-63): no image, empty
prompt, no results, not loading, error set to `getInitializationError()`. -/
def initSession (initError : InitError) : Session :=
  ⟨none, "", [], false, initError⟩

/-- src/App.tsx line 123: the validation error message of `handleSubmit`. -/
def validationErrorMsg : String := "Please provide an image and a descriptive prompt."

/-- src/App.tsx line 133: message used when a non-`Error` value is thrown. -/
def unknownErrorMsg : String := "An unknown error occurred."

/-- src/App.tsx line 82: error set when there is nothing to download. -/
def noImagesMsg : String := "No images to download."

/-- src/App.tsx line 86: error set when the JSZip library is missing. -/
def noJSZipMsg : String := "Could not find the JSZip library. Download failed."

/-- src/App.tsx line 115: message for a non-`Error` thrown during download. -/
def unknownDownloadErrorMsg : String := "An unknown error occurred during download."

/-- src/App.tsx line 115: the error message recorded when the download
try-block throws: `Download failed: ` plus the `Error` message, or the
fixed unknown-error message for a non-`Error` value. -/
def downloadFailureMsg : Option String → String
  | some msg => "Download failed: " ++ msg
  | none => unknownDownloadErrorMsg

/-- src/App.tsx line 65-69 (`handleImageUpload`): sets the image, clears
results and error; prompt and loading flag are untouched. -/
def handleImageUpload (s : Session) (image : UploadedImage) : Session :=
  { s with originalImage := some image, editedResults := [], error := none }

/-- src/App.tsx lines 71-76 (`handleNewUpload`): clears image, results
and prompt, and sets the error back to `getInitializationError()`
(supplied here as `initError`); the loading flag is untouched. -/
def handleNewUpload (s : Session) (initError : InitError) : Session :=
  { s with originalImage := none, editedResults := [], prompt := "",
           error := initError }

/-- JS `String.prototype.trim`: remove leading and trailing whitespace.
Embedded at the character-list level (drop whitespace from the front,
then from the back). -/
def jsTrim (s : String) : String :=
  String.mk (((s.data.dropWhile Char.isWhitespace).reverse.dropWhile Char.isWhitespace).reverse)

/-- src/App.tsx line 78: a character the sanitizer keeps, i.e. one
matching `[a-z0-9_.-]` case-insensitively. -/
def isAllowedFilenameChar (c : Char) : Bool :=
  (decide ('a' ≤ c) && decide (c ≤ 'z')) ||
  (decide ('A' ≤ c) && decide (c ≤ 'Z')) ||
  (decide ('0' ≤ c) && decide (c ≤ '9')) ||
  c == '_' || c == '.' || c == '-'

/-- src/App.tsx line 78 (`sanitizeFilename`): replace every character
outside `[a-z0-9_.-]/i` with an underscore, then keep the first 50
characters (`substring(0, 50)`). -/
def sanitizeFilename (name : String) : String :=
  String.mk
    ((name.data.map (fun c => if isAllowedFilenameChar c then c else '_')).take 50)

/-- src/App.tsx line 95: `originalImage.mimeType.split(&#39;/&#39;)[1] || &#39;png&#39;`:
the part of the media type after the first `/`, falling back to `png`
when that part is missing or empty (empty is falsy in JS). -/
def originalExt (mimeType : String) : String :=
  match (List.splitOn '/' mimeType.data).get? 1 with
  | some e => if e = [] then "png" else String.mk e
  | none => "png"

/-- src/App.tsx line 97: the archive entry name of the original image. -/
def originalEntryName (image : UploadedImage) : String :=
  "original." ++ originalExt image.mimeType

/-- src/App.tsx lines 101-102: the archive entry name of the result at
zero-based `index`.  `result.prompt ? sanitizeFilename(result.prompt) : ...`
is a JS truthiness test, so both a missing prompt and an empty-string
prompt take the `edit_N` fallback. -/
def editEntryName (index : Nat) (result : EditedImageResult) : String :=
  let promptPart :=
    match result.prompt with
    | some p => if p = "" then "edit_" ++ toString (index + 1) else sanitizeFilename p
    | none => "edit_" ++ toString (index + 1)
  "edit_" ++ toString (index + 1) ++ "_" ++ promptPart ++ ".png"

/-- src/App.tsx lines 95-103: the full list of archive entry names, in
order: the original image entry, then one entry per result in history
order. -/
def zipEntryNames (image : UploadedImage) (results : List EditedImageResult) : List String :=
  originalEntryName image :: results.enum.map (fun p => editEntryName p.1 p.2)

/-- Outcome of the awaited work inside `handleDownloadAll`'s try-block
(fetches, zip packaging, link click): success, or a thrown value
(`some msg` for an `Error` with that message, `none` otherwise). -/
inductive DownloadOutcome where
  | success : DownloadOutcome
  | failure : Option String → DownloadOutcome
deriving DecidableEq, Repr

/-- What a run of `handleDownloadAll` produces: the final session,
whether execution entered the archival try-block (where every network
fetch and all archive packaging happens), and the archive entry names
created on success. -/
structure DownloadResult where
  session : Session
  enteredArchival : Bool
  entries : List String
deriving DecidableEq, Repr

/-- src/App.tsx lines 80-119 (`handleDownloadAll`).  Guard order follows
the source: missing image or empty history sets the no-images error and
returns; a missing JSZip global sets the library error and returns;
otherwise loading is set, error cleared, and the try-block runs: on
success the entries are created and loading cleared in `finally`; on a
throw the failure message is recorded and loading cleared. -/
def handleDownloadAll (s : Session) (jszipAvailable : Bool)
    (outcome : DownloadOutcome) : DownloadResult :=
  if s.originalImage.isNone || s.editedResults.length == 0 then
    ⟨{ s with error := some noImagesMsg }, false, []⟩
  else if !jszipAvailable then
    ⟨{ s with error := some noJSZipMsg }, false, []⟩
  else
    match s.originalImage with
    | none =>
      -- unreachable: the first guard already returned when the image is absent
      ⟨{ s with error := some noImagesMsg }, false, []⟩
    | some image =>
      match outcome with
      | DownloadOutcome.success =>
        ⟨{ s with error := none, isLoading := false }, true,
          zipEntryNames image s.editedResults⟩
      | DownloadOutcome.failure m =>
        ⟨{ s with error := some (downloadFailureMsg m), isLoading := false }, true, []⟩

/-- src/App.tsx line 122: the validation guard of `handleSubmit`,
`!originalImage || !prompt.trim()` (an empty trimmed prompt is falsy). -/
def submitBlocked (s : Session) : Bool :=
  s.originalImage.isNone || jsTrim s.prompt == ""

/-- src/App.tsx lines 126-127: the session state while the edit call is
outstanding — error cleared and loading set, everything else as at
submission time. -/
def submitPending (s : Session) : Session :=
  { s with error := none, isLoading := true }

/-- What a run of `handleSubmit` produces: the final session and whether
`editImageWithGemini` was invoked. -/
structure SubmitResult where
  session : Session
  invokedClient : Bool
deriving DecidableEq, Repr

/-- src/App.tsx lines 121-137 (`handleSubmit`).  If validation fails the
error is set and the handler returns without calling the client.
Otherwise error is cleared and loading set; on a successful call the
result (with the submitting prompt attached) is appended to the history;
on a throw the error message is recorded; loading is cleared in
`finally` either way. -/
def handleSubmit (s : Session) (outcome : EditOutcome) : SubmitResult :=
  if submitBlocked s then
    ⟨{ s with error := some validationErrorMsg }, false⟩
  else
    let pending := submitPending s
    match outcome with
    | Except.ok result =>
      ⟨{ pending with
          editedResults :=
            pending.editedResults ++ [⟨result.imageUrl, result.text, some s.prompt⟩],
          isLoading := false }, true⟩
    | Except.error m =>
      ⟨{ pending with error := some (m.getD unknownErrorMsg), isLoading := false }, true⟩

/-- A discrete user action on the session, with the environment inputs
each handler reads supplied as data. -/
inductive SessionOp where
  | upload : UploadedImage → SessionOp
  | editPrompt : String → SessionOp
  | reset : InitError → SessionOp
  | submit : EditOutcome → SessionOp
  | download : Bool → DownloadOutcome → SessionOp

/-- One completed user action applied to the session: upload, prompt
edit (the textarea onChange on src/App.tsx line 162), reset, a completed
submit, or a completed download. -/
def applyOp (s : Session) : SessionOp → Session
  | SessionOp.upload image => handleImageUpload s image
  | SessionOp.editPrompt p => { s with prompt := p }
  | SessionOp.reset initError => handleNewUpload s initError
  | SessionOp.submit outcome => (handleSubmit s outcome).session
  | SessionOp.download j outcome => (handleDownloadAll s j outcome).session

/-! ## Helper lemmas -/

lemma submitBlocked_eq_true (s : Session)
    (h : s.originalImage = none ∨ jsTrim s.prompt = "") : submitBlocked s = true := by
  rcases h with h | h <;> simp [submitBlocked, h]

lemma submitBlocked_eq_false (s : Session)
    (h1 : s.originalImage ≠ none) (h2 : jsTrim s.prompt ≠ "") : submitBlocked s = false := by
  simp [submitBlocked, Option.isSome_iff_ne_none, h1, h2]

/-! ## Claim theorems -/

/-- Claim C1: invoking `handleSubmit` on a session whose original image
is absent or whose prompt is blank after trimming sets the validation
error message and returns: the Edit Client is not invoked and the
results list and the loading flag are unchanged. -/
theorem submit_validation_guard (s : Session) (o : EditOutcome)
    (h : s.originalImage = none ∨ jsTrim s.prompt = "") :
    (handleSubmit s o).session.error = some validationErrorMsg ∧
    (handleSubmit s o).invokedClient = false ∧
    (handleSubmit s o).session.editedResults = s.editedResults ∧
    (handleSubmit s o).session.isLoading = s.isLoading := by
  simp [handleSubmit, submitBlocked_eq_true s h]

/-- Witness for C1 at a concrete blocked session (the initial one). -/
theorem submit_validation_guard_witness :
    (handleSubmit (initSession none) (Except.ok ⟨"u", none⟩)).session.error
        = some validationErrorMsg ∧
    (handleSubmit (initSession none) (Except.ok ⟨"u", none⟩)).invokedClient = false ∧
    (handleSubmit (initSession none) (Except.ok ⟨"u", none⟩)).session.editedResults = [] ∧
    (handleSubmit (initSession none) (Except.ok ⟨"u", none⟩)).session.isLoading = false :=
  submit_validation_guard (initSession none) (Except.ok ⟨"u", none⟩) (Or.inl rfl)

/-- Claim C2: on a session with a non-null image and non-blank prompt,
a successful Edit Client call leaves the error cleared and the results
list equal to the prior list with exactly one new result appended at the
end, carrying the submitting prompt; prior results are untouched. -/
theorem submit_success_appends (s : Session) (res : GeminiResult)
    (h1 : s.originalImage ≠ none) (h2 : jsTrim s.prompt ≠ "") :
    (handleSubmit s (Except.ok res)).session.error = none ∧
    (handleSubmit s (Except.ok res)).session.editedResults
        = s.editedResults ++ [⟨res.imageUrl, res.text, some s.prompt⟩] ∧
    (handleSubmit s (Except.ok res)).invokedClient = true := by
  simp [handleSubmit, submitBlocked_eq_false s h1 h2, submitPending]

/-- Witness for C2 at a concrete valid session. -/
theorem submit_success_appends_witness :
    (handleSubmit ⟨some ⟨"d", "image/png"⟩, "p", [⟨"r0", none, some "q"⟩], false, some "old"⟩
        (Except.ok ⟨"u", some "done"⟩)).session.error = none ∧
    (handleSubmit ⟨some ⟨"d", "image/png"⟩, "p", [⟨"r0", none, some "q"⟩], false, some "old"⟩
        (Except.ok ⟨"u", some "done"⟩)).session.editedResults
        = [⟨"r0", none, some "q"⟩] ++ [⟨"u", some "done", some "p"⟩] ∧
    (handleSubmit ⟨some ⟨"d", "image/png"⟩, "p", [⟨"r0", none, some "q"⟩], false, some "old"⟩
        (Except.ok ⟨"u", some "done"⟩)).invokedClient = true :=
  submit_success_appends ⟨some ⟨"d", "image/png"⟩, "p", [⟨"r0", none, some "q"⟩], false, some "old"⟩
    ⟨"u", some "done"⟩ (by decide) (by decide)

/-- Claim C3: on a session with a non-null image and non-blank prompt,
a failed Edit Client call leaves the results list, the original image
and the prompt unchanged, and sets the error to the failure's message,
or to the fixed unknown-error message when the failure carries none. -/
theorem submit_failure_preserves (s : Session) (m : Option String)
    (h1 : s.originalImage ≠ none) (h2 : jsTrim s.prompt ≠ "") :
    (handleSubmit s (Except.error m)).session.editedResults = s.editedResults ∧
    (handleSubmit s (Except.error m)).session.originalImage = s.originalImage ∧
    (handleSubmit s (Except.error m)).session.prompt = s.prompt ∧
    (handleSubmit s (Except.error m)).session.error = some (m.getD unknownErrorMsg) := by
  simp [handleSubmit, submitBlocked_eq_false s h1 h2, submitPending]

/-- Witness for C3 at a concrete valid session and a message-carrying failure. -/
theorem submit_failure_preserves_witness :
    (handleSubmit ⟨some ⟨"d", "image/png"⟩, "p", [⟨"r0", none, some "q"⟩], false, none⟩
        (Except.error (some "boom"))).session.editedResults = [⟨"r0", none, some "q"⟩] ∧
    (handleSubmit ⟨some ⟨"d", "image/png"⟩, "p", [⟨"r0", none, some "q"⟩], false, none⟩
        (Except.error (some "boom"))).session.originalImage = some ⟨"d", "image/png"⟩ ∧
    (handleSubmit ⟨some ⟨"d", "image/png"⟩, "p", [⟨"r0", none, some "q"⟩], false, none⟩
        (Except.error (some "boom"))).session.prompt = "p" ∧
    (handleSubmit ⟨some ⟨"d", "image/png"⟩, "p", [⟨"r0", none, some "q"⟩], false, none⟩
        (Except.error (some "boom"))).session.error = some "boom" :=
  submit_failure_preserves ⟨some ⟨"d", "image/png"⟩, "p", [⟨"r0", none, some "q"⟩], false, none⟩
    (some "boom") (by decide) (by decide)

/-- Counterexample to claim C4 as stated: in an environment whose
standing initialization error is non-null (credential absent, per the
spec), `handleNewUpload` sets the error back to that message, not to
null. -/
theorem reset_error_counterexample :
    (handleNewUpload ⟨some ⟨"d", "image/png"⟩, "p", [⟨"u", none, some "p"⟩], false, some "old"⟩
        (some "API_KEY is not configured")).error = some "API_KEY is not configured" ∧
    some "API_KEY is not configured" ≠ (none : Option String) :=
  ⟨rfl, by decide⟩

/-- Claim C4 as amended: `handleNewUpload` clears the image, the results
and the prompt, leaves the loading flag untouched, and sets the error to
the standing initialization error returned by `getInitializationError()`
— which is null exactly when the environment is configured. -/
theorem reset_clears_session (s : Session) (initError : InitError) :
    handleNewUpload s initError = ⟨none, "", [], s.isLoading, initError⟩ :=
  rfl

lemma applyOp_isLoading_false (s : Session) (op : SessionOp) (h : s.isLoading = false) :
    (applyOp s op).isLoading = false := by
  cases op with
  | upload image => simpa [applyOp, handleImageUpload] using h
  | editPrompt p => simpa [applyOp] using h
  | reset initError => simpa [applyOp, handleNewUpload] using h
  | submit o =>
    simp only [applyOp, handleSubmit]
    split
    · simpa using h
    · cases o <;> simp [submitPending]
  | download j o =>
    simp only [applyOp, handleDownloadAll]
    split
    · simpa using h
    · split
      · simpa using h
      · split
        · simpa using h
        · cases o <;> simp

lemma foldl_applyOp_isLoading_false :
    ∀ (ops : List SessionOp) (s : Session), s.isLoading = false →
      (List.foldl applyOp s ops).isLoading = false
  | [], _, h => h
  | op :: ops, s, h =>
    foldl_applyOp_isLoading_false ops (applyOp s op) (applyOp_isLoading_false s op h)

/-- Claim C5: the loading-flag discipline of the submit path.  When
validation fails, the client is not invoked and the loading flag is
untouched; when validation passes, the pending state (reached just
before the client is invoked) has loading true, the client is invoked,
and on completion — success or failure — loading is false.  Moreover no
session reachable from the initial state by completed operations has
loading left true. -/
theorem loading_flag_discipline :
    (∀ (s : Session) (o : EditOutcome), submitBlocked s = true →
        (handleSubmit s o).invokedClient = false ∧
        (handleSubmit s o).session.isLoading = s.isLoading) ∧
    (∀ (s : Session) (o : EditOutcome), submitBlocked s = false →
        (submitPending s).isLoading = true ∧
        (handleSubmit s o).invokedClient = true ∧
        (handleSubmit s o).session.isLoading = false) ∧
    (∀ (initError : InitError) (ops : List SessionOp),
        (List.foldl applyOp (initSession initError) ops).isLoading = false) := by
  refine ⟨?_, ?_, ?_⟩
  · intro s o h
    simp [handleSubmit, h]
  · intro s o h
    refine ⟨rfl, ?_, ?_⟩ <;> cases o <;> simp [handleSubmit, h, submitPending]
  · intro initError ops
    exact foldl_applyOp_isLoading_false ops (initSession initError) rfl

/-- Witness for C5: a blocked submit, a completed valid submit, and a
concrete operation sequence, all at concrete inputs. -/
theorem loading_flag_discipline_witness :
    (handleSubmit (initSession none) (Except.ok ⟨"u", none⟩)).invokedClient = false ∧
    (handleSubmit ⟨some ⟨"d", "image/png"⟩, "p", [], false, none⟩
        (Except.ok ⟨"u", none⟩)).session.isLoading = false ∧
    (List.foldl applyOp (initSession none)
        [SessionOp.upload ⟨"d", "image/png"⟩, SessionOp.editPrompt "p",
         SessionOp.submit (Except.ok ⟨"u", none⟩),
         SessionOp.download true DownloadOutcome.success]).isLoading = false :=
  ⟨(loading_flag_discipline.1 (initSession none) (Except.ok ⟨"u", none⟩) (by decide)).1,
   ((loading_flag_discipline.2.1 ⟨some ⟨"d", "image/png"⟩, "p", [], false, none⟩
      (Except.ok ⟨"u", none⟩) (by decide)).2.2),
   loading_flag_discipline.2.2 none
     [SessionOp.upload ⟨"d", "image/png"⟩, SessionOp.editPrompt "p",
      SessionOp.submit (Except.ok ⟨"u", none⟩),
      SessionOp.download true DownloadOutcome.success]⟩

/-- Claim C6: invoking `handleDownloadAll` on a session with an empty
results list or an absent original image sets the no-images error and
returns before the archival try-block (so before any fetch or archive
creation); the image, prompt and results are unchanged. -/
theorem download_blocked_guard (s : Session) (jszipAvailable : Bool) (o : DownloadOutcome)
    (h : s.editedResults = [] ∨ s.originalImage = none) :
    (handleDownloadAll s jszipAvailable o).session.error = some noImagesMsg ∧
    (handleDownloadAll s jszipAvailable o).enteredArchival = false ∧
    (handleDownloadAll s jszipAvailable o).entries = [] ∧
    (handleDownloadAll s jszipAvailable o).session.originalImage = s.originalImage ∧
    (handleDownloadAll s jszipAvailable o).session.prompt = s.prompt ∧
    (handleDownloadAll s jszipAvailable o).session.editedResults = s.editedResults := by
  have hg : (s.originalImage.isNone || s.editedResults.length == 0) = true := by
    rcases h with h | h <;> simp [h]
  simp [handleDownloadAll, hg]

/-- Witness for C6 at a concrete session with an image but no results. -/
theorem download_blocked_guard_witness :
    (handleDownloadAll ⟨some ⟨"d", "image/png"⟩, "p", [], false, none⟩ true
        DownloadOutcome.success).session.error = some noImagesMsg ∧
    (handleDownloadAll ⟨some ⟨"d", "image/png"⟩, "p", [], false, none⟩ true
        DownloadOutcome.success).enteredArchival = false ∧
    (handleDownloadAll ⟨some ⟨"d", "image/png"⟩, "p", [], false, none⟩ true
        DownloadOutcome.success).entries = [] ∧
    (handleDownloadAll ⟨some ⟨"d", "image/png"⟩, "p", [], false, none⟩ true
        DownloadOutcome.success).session.originalImage = some ⟨"d", "image/png"⟩ ∧
    (handleDownloadAll ⟨some ⟨"d", "image/png"⟩, "p", [], false, none⟩ true
        DownloadOutcome.success).session.prompt = "p" ∧
    (handleDownloadAll ⟨some ⟨"d", "image/png"⟩, "p", [], false, none⟩ true
        DownloadOutcome.success).session.editedResults = [] :=
  download_blocked_guard ⟨some ⟨"d", "image/png"⟩, "p", [], false, none⟩ true
    DownloadOutcome.success (Or.inl rfl)

/-- Claim C10: `handleDownloadAll` never modifies the original image,
the prompt or the results list — on every branch (blocked, missing
library, failure, success) only the error and loading flag may change. -/
theorem download_frame (s : Session) (jszipAvailable : Bool) (o : DownloadOutcome) :
    (handleDownloadAll s jszipAvailable o).session.originalImage = s.originalImage ∧
    (handleDownloadAll s jszipAvailable o).session.prompt = s.prompt ∧
    (handleDownloadAll s jszipAvailable o).session.editedResults = s.editedResults := by
  unfold handleDownloadAll
  split
  · exact ⟨rfl, rfl, rfl⟩
  · split
    · exact ⟨rfl, rfl, rfl⟩
    · split
      · exact ⟨rfl, rfl, rfl⟩
      · cases o <;> exact ⟨rfl, rfl, rfl⟩

lemma sanitizeChar_allowed (a : Char) :
    isAllowedFilenameChar (if isAllowedFilenameChar a then a else '_') = true := by
  split
  · assumption
  · decide

lemma map_sanitizeChar_of_allowed :
    ∀ (l : List Char), (∀ c ∈ l, isAllowedFilenameChar c = true) →
      l.map (fun c => if isAllowedFilenameChar c then c else '_') = l
  | [], _ => rfl
  | a :: t, h => by
    simp only [List.map_cons, h a (List.mem_cons_self a t), if_pos]
    exact congrArg (a :: ·) (map_sanitizeChar_of_allowed t fun c hc => h c (List.mem_cons_of_mem a hc))

lemma mem_sanitizeFilename_allowed (name : String) :
    ∀ c ∈ (sanitizeFilename name).data, isAllowedFilenameChar c = true := by
  intro c hc
  have hc2 : c ∈ name.data.map (fun a => if isAllowedFilenameChar a then a else '_') :=
    List.mem_of_mem_take hc
  rcases List.mem_map.mp hc2 with ⟨a, _, rfl⟩
  exact sanitizeChar_allowed a

/-- Claim C7: `sanitizeFilename` returns a string all of whose
characters are in the allowed set (ASCII letters, digits, underscore,
dot, hyphen — every other character having been replaced by an
underscore) and whose length is at most 50. -/
theorem sanitizeFilename_allowed_and_bounded (name : String) :
    (sanitizeFilename name).data.all isAllowedFilenameChar = true ∧
    (sanitizeFilename name).length ≤ 50 := by
  constructor
  · exact List.all_eq_true.mpr (mem_sanitizeFilename_allowed name)
  · exact List.length_take_le 50
      (name.data.map fun c => if isAllowedFilenameChar c then c else '_')

/-- Claim C9: `sanitizeFilename` is idempotent. -/
theorem sanitizeFilename_idempotent (name : String) :
    sanitizeFilename (sanitizeFilename name) = sanitizeFilename name := by
  have hall := mem_sanitizeFilename_allowed name
  have hlen : (sanitizeFilename name).data.length ≤ 50 :=
    List.length_take_le 50
      (name.data.map fun c => if isAllowedFilenameChar c then c else '_')
  show String.mk (((sanitizeFilename name).data.map
      (fun c => if isAllowedFilenameChar c then c else '_')).take 50) = sanitizeFilename name
  rw [map_sanitizeChar_of_allowed (sanitizeFilename name).data hall,
      List.take_of_length_le hlen]

/-- The per-result archive naming rule exactly as claim C8 states it:
the `edit_N` fallback is used only when no prompt was recorded at all,
so a recorded empty prompt would be sanitized (to the empty string). -/
def claimEditEntryName (index : Nat) (result : EditedImageResult) : String :=
  let promptPart :=
    match result.prompt with
    | some p => sanitizeFilename p
    | none => "edit_" ++ toString (index + 1)
  "edit_" ++ toString (index + 1) ++ "_" ++ promptPart ++ ".png"

/-- Counterexample to claim C8 as stated: a result that recorded the
empty-string prompt.  JS truthiness sends it to the `edit_N` fallback,
so the archive entry is `edit_1_edit_1.png`, while the claim's rule
(fallback only when no prompt was recorded) would name it
`edit_1_.png`. -/
theorem entry_name_truthiness_counterexample :
    (handleDownloadAll ⟨some ⟨"d", "image/png"⟩, "p", [⟨"u", none, some ""⟩], false, none⟩
        true DownloadOutcome.success).entries = ["original.png", "edit_1_edit_1.png"] ∧
    claimEditEntryName 0 ⟨"u", none, some ""⟩ = "edit_1_.png" ∧
    editEntryName 0 ⟨"u", none, some ""⟩ ≠ claimEditEntryName 0 ⟨"u", none, some ""⟩ :=
  ⟨by decide, by decide, by decide⟩

/-- The per-result archive naming rule as amended: the `edit_N` fallback
part is used when the recorded prompt is absent or empty, the sanitized
prompt otherwise. -/
def amendedEditEntryName (index : Nat) (result : EditedImageResult) : String :=
  match result.prompt with
  | some p =>
    if p = "" then
      "edit_" ++ toString (index + 1) ++ "_edit_" ++ toString (index + 1) ++ ".png"
    else
      "edit_" ++ toString (index + 1) ++ "_" ++ sanitizeFilename p ++ ".png"
  | none => "edit_" ++ toString (index + 1) ++ "_edit_" ++ toString (index + 1) ++ ".png"

lemma edit_fallback_append (t : String) :
    "edit_" ++ t ++ "_" ++ ("edit_" ++ t) ++ ".png"
      = "edit_" ++ t ++ "_edit_" ++ t ++ ".png" := by
  apply String.ext
  simp [String.data_append, List.append_assoc]

lemma editEntryName_eq_amended (index : Nat) (result : EditedImageResult) :
    editEntryName index result = amendedEditEntryName index result := by
  cases hp : result.prompt with
  | none => simp [editEntryName, amendedEditEntryName, hp, edit_fallback_append]
  | some p =>
    by_cases he : p = "" <;>
      simp [editEntryName, amendedEditEntryName, hp, he, edit_fallback_append]

/-- Claim C8 as amended: on a successful archive export from a session
with an image and a non-empty history, the entries are deterministic
functions of the session state: the original is named `original.`
followed by the extension derived from the declared media type (the
part after the `/`, with `png` when that part is absent or empty), and
the result at zero-based index `i` is named `edit_(i+1)_` followed by
the sanitized prompt of that result — or by `edit_(i+1)` when the
recorded prompt is absent or empty — with suffix `.png`. -/
theorem archive_entry_names_amended (s : Session) (image : UploadedImage)
    (h1 : s.originalImage = some image) (h2 : s.editedResults ≠ []) :
    (handleDownloadAll s true DownloadOutcome.success).entries
      = ("original." ++ originalExt image.mimeType)
        :: s.editedResults.enum.map (fun p => amendedEditEntryName p.1 p.2) := by
  simp [handleDownloadAll, h1, h2, zipEntryNames, originalEntryName, editEntryName_eq_amended]

/-- Witness for the amended C8 at a concrete session holding two
results, one with a prompt and one without. -/
theorem archive_entry_names_amended_witness :
    (handleDownloadAll ⟨some ⟨"d", "image/jpeg"⟩, "p",
        [⟨"u1", none, some "add a cat!"⟩, ⟨"u2", some "ok", none⟩], false, none⟩
        true DownloadOutcome.success).entries
      = ("original." ++ originalExt "image/jpeg")
        :: [(⟨"u1", none, some "add a cat!"⟩ : EditedImageResult),
            ⟨"u2", some "ok", none⟩].enum.map (fun p => amendedEditEntryName p.1 p.2) :=
  archive_entry_names_amended
    ⟨some ⟨"d", "image/jpeg"⟩, "p",
      [⟨"u1", none, some "add a cat!"⟩, ⟨"u2", some "ok", none⟩], false, none⟩
    ⟨"d", "image/jpeg"⟩ rfl (by decide)

end App
